import Mathlib

/-!
# Verification of `discord_bot.py` (smith-bot)

A shallow embedding of the single source file `src/discord_bot.py` of the
smith-bot repository, together with theorems settling the specification
claims about it.

Modelling conventions:

* Python strings are Lean `String`s; where the Python code slices or strips,
  we operate on the underlying `List Char` with structural functions
  (`listHeadMatches`, `pyStrip`, `strDrop`) so that everything computes.
* Side effects (Discord sends, the HTTP POST to the n8n workflow, log prints)
  are reified as values in effect lists, emitted in program order.
* External outcomes the code branches on (the result of `requests.post`, the
  result of `client.fetch_channel`, the result of `channel.send`) are inputs
  to the embedded functions.  `await message.channel.send(...)` calls that
  the code does not guard with `try/except` are recorded as effects and
  modelled as succeeding; a platform failure there would propagate out of
  the handler and is outside the claims considered.
* `requests.Response.raise_for_status()` raises exactly when the status code
  is in `[400, 600)` (the source comments this as "(4xx or 5xx)").
* The Flask handler's `int(data['channel_id'])` is modelled by `pyIntOf`
  over a small JSON value type; JSON numbers are modelled as integers.
-/

/-! ## Python string helpers -/

/-- Whitespace characters stripped by Python's `str.strip()`. -/
def isPySpace (c : Char) : Bool :=
  c == ' ' || c == '\t' || c == '\n' || c == '\r' || c == '\x0b' || c == '\x0c'

/-- `listHeadMatches s p` is true when the list `p` is an initial run of `s`
(Python `s.startswith(p)` on character lists). -/
def listHeadMatches : List Char → List Char → Bool
  | _, [] => true
  | [], _ :: _ => false
  | c :: cs, p :: ps => c == p && listHeadMatches cs ps

/-- Python `s.startswith(p)`. -/
def pyStartsWith (s p : String) : Bool :=
  listHeadMatches s.data p.data

/-- Python `s.strip()`: drop leading and trailing whitespace. -/
def pyStrip (s : String) : String :=
  ⟨(((s.data.dropWhile isPySpace).reverse).dropWhile isPySpace).reverse⟩

/-- Python slicing `s[n:]` (by code point, as in Python). -/
def strDrop (s : String) (n : Nat) : String :=
  ⟨s.data.drop n⟩

/-- Python `s.lower()` (restricted to simple per-character lowering, which is
what the static-command comparison would need). -/
def pyLower (s : String) : String :=
  ⟨s.data.map Char.toLower⟩

/-! ## JSON values and Python `int()` conversion -/

/-- JSON scalar values as decoded by Flask's `request.json`; numbers are
modelled as integers. -/
inductive JsonVal where
  | jNull
  | jBool (b : Bool)
  | jInt (n : Int)
  | jStr (s : String)
deriving DecidableEq, Repr

/-- Parse a digit run; fails on the empty list or a non-digit. -/
def digitsToNat : List Char → Option Nat
  | [] => none
  | [c] => if c.isDigit then some (c.toNat - '0'.toNat) else none
  | c :: cs =>
    if c.isDigit then
      (digitsToNat cs).map (fun n => (c.toNat - '0'.toNat) * 10 ^ cs.length + n)
    else none

/-- Python `int(s)` on a string: surrounding whitespace is allowed, then an
optional sign and a non-empty digit run (digit-group underscores are not
modelled). -/
def pyStrToInt (s : String) : Option Int :=
  match (pyStrip s).data with
  | '-' :: rest => (digitsToNat rest).map (fun n => -(n : Int))
  | '+' :: rest => (digitsToNat rest).map (fun n => (n : Int))
  | l => (digitsToNat l).map (fun n => (n : Int))

/-- Python `int(v)` on a decoded JSON value: an int is itself, a bool is 0/1,
a string is parsed, `None` raises `TypeError`. -/
def pyIntOf : JsonVal → Option Int
  | .jInt n => some n
  | .jBool b => some (if b then 1 else 0)
  | .jStr s => pyStrToInt s
  | .jNull => none

/-! ## The Flask callback endpoint `receive_n8n_response` -/

/-- The JSON body of a `POST /webhook` request: each documented field either
absent or present with a value.  `message` is `data['message']`, documented
by the endpoint's docstring as a string. -/
structure CallbackBody where
  channel_id : Option JsonVal
  message : Option String
deriving DecidableEq, Repr

/-- The JSON body of the HTTP response produced by the endpoint:
`{"status": "success"}` or `{"status": "error", "details": <string>}`. -/
inductive RespBody where
  | success
  | error (details : String)
deriving DecidableEq, Repr

/-- Outcome of one call of the Flask handler: HTTP status, response body,
and the delivery task handed to `client.loop.create_task`, if any. -/
structure WebhookResult where
  status : Nat
  body : RespBody
  scheduled : Option (Int × String)
deriving DecidableEq, Repr

/-- Embedding of `receive_n8n_response` (src/discord_bot.py lines 48-70).
The argument is the decoded request body, `none` when `request.json` fails.
Each failure point of the `try` block maps to the `500` branch of the
`except` handler; the detail strings abbreviate the Python exception text. -/
def receive_n8n_response (req : Option CallbackBody) : WebhookResult :=
  match req with
  | none => ⟨500, .error "request body is not valid JSON", none⟩
  | some data =>
    match data.channel_id with
    | none => ⟨500, .error "KeyError: channel_id", none⟩
    | some v =>
      match pyIntOf v with
      | none => ⟨500, .error "int() conversion failed", none⟩
      | some channel_id =>
        match data.message with
        | none => ⟨500, .error "KeyError: message", none⟩
        | some message_content =>
          ⟨200, .success, some (channel_id, message_content)⟩

/-- The well-formedness condition of a callback body: decodable JSON with a
`channel_id` convertible by `int()` and a `message` field present. -/
def callbackOk (req : Option CallbackBody) : Prop :=
  ∃ data, req = some data ∧
    (∃ v, data.channel_id = some v ∧ (pyIntOf v).isSome) ∧ data.message.isSome

instance (req : Option CallbackBody) : Decidable (callbackOk req) := by
  unfold callbackOk
  cases req with
  | none =>
    exact .isFalse (by rintro ⟨d, h, -⟩; exact Option.noConfusion h)
  | some d =>
    refine decidable_of_iff ((∃ v, d.channel_id = some v ∧ (pyIntOf v).isSome) ∧ d.message.isSome) ?_
    constructor
    · intro h; exact ⟨d, rfl, h⟩
    · rintro ⟨d2, hd, h⟩; cases Option.some.inj hd; exact h

/-! ## Delivery: `send_message_to_channel` -/

/-- Observable actions of the delivery coroutine. -/
inductive DeliveryEffect where
  | send (channelId : Int) (text : String)
  | log (text : String)
deriving DecidableEq, Repr

/-- Embedding of `send_message_to_channel` (src/discord_bot.py lines 72-83).
`fetched` is the outcome of `await client.fetch_channel(channel_id)`:
`.error e` when it raises, `.ok none` for a falsy result (the code's
`if channel:` guard), `.ok (some ())` for a channel handle.  `sendResult` is
the outcome of `await channel.send(message)`.  Exceptions of either `await`
are caught by the function's own `try/except`, which only prints; hence the
return type is a plain effect list — no exception escapes. -/
def send_message_to_channel (fetched : Except String (Option Unit))
    (sendResult : Except String Unit) (channel_id : Int) (message : String) :
    List DeliveryEffect :=
  match fetched with
  | .error e =>
    [.log ("Error sending message to channel " ++ toString channel_id ++ ": " ++ e)]
  | .ok none =>
    [.log ("Error: Could not find channel with ID " ++ toString channel_id)]
  | .ok (some _) =>
    match sendResult with
    | .ok _ => [.send channel_id message]
    | .error e =>
      [.send channel_id message,
       .log ("Error sending message to channel " ++ toString channel_id ++ ": " ++ e)]

/-- The texts of the Discord sends attempted by a delivery, in order. -/
def deliveryTexts (effs : List DeliveryEffect) : List String :=
  effs.filterMap (fun e => match e with | .send _ t => some t | .log _ => none)

/-! ## The dispatcher: `on_message` -/

/-- An inbound Discord message event, with `authorIsBot` standing for the
`message.author == client.user` test. -/
structure InMessage where
  authorIsBot : Bool
  authorName : String
  content : String
  channelId : Int
deriving DecidableEq, Repr

/-- The JSON payload posted to the n8n workflow: exactly the keys `query`,
`channel_id` and `user` built at src/discord_bot.py lines 117-121. -/
structure JobPayload where
  query : String
  channel_id : String
  user : String
deriving DecidableEq, Repr

/-- Observable actions of the dispatcher. -/
inductive BotEffect where
  | send (channelId : Int) (text : String)
  | forward (url : String) (payload : JobPayload) (timeoutSecs : Nat)
  | log (text : String)
deriving DecidableEq, Repr

/-- The command marker `'!Smith '` (with its trailing space). -/
def commandMarker : String := "!Smith "

/-- The acknowledgment reply of src/discord_bot.py line 114. -/
def ackText (q : String) : String :=
  "Got it. Analyzing your request: `" ++ q ++ "`. Please wait..."

/-- The apology reply of src/discord_bot.py line 130. -/
def apologyText : String :=
  "Sorry, there was an error communicating with my analysis service. Please try again later."

/-- Outcome of `requests.post(N8N_WEBHOOK_URL, json=payload, timeout=10)`:
either a raised `RequestException` (timeout, connection failure, ...) or a
response with a status code. -/
inductive PostResult where
  | transportError (detail : String)
  | response (status : Nat)
deriving DecidableEq, Repr

/-- Embedding of `on_message` (src/discord_bot.py lines 94-130).  `post` is
the outcome of the single `requests.post` call; `response.raise_for_status()`
raises exactly for status codes in `[400, 600)`, and the raised exception is
a `RequestException` caught by the same `except` clause. -/
def on_message (n8nUrl : String) (post : PostResult) (m : InMessage) :
    List BotEffect :=
  if m.authorIsBot then []
  else if pyStartsWith m.content commandMarker then
    let query := pyStrip (strDrop m.content commandMarker.length)
    let channel_id := m.channelId
    BotEffect.log ("Received query from channel " ++ toString channel_id ++ ": " ++ query) ::
    BotEffect.send channel_id (ackText query) ::
    BotEffect.forward n8nUrl ⟨query, toString channel_id, m.authorName⟩ 10 ::
    (match post with
     | .transportError e =>
       [BotEffect.log ("Error sending data to n8n: " ++ e),
        BotEffect.send channel_id apologyText]
     | .response s =>
       if 400 ≤ s ∧ s < 600 then
         [BotEffect.log ("Error sending data to n8n: HTTPError " ++ toString s),
          BotEffect.send channel_id apologyText]
       else
         [BotEffect.log ("Successfully sent data to n8n. Status: " ++ toString s)])
  else []

/-- The Discord sends of a dispatcher run: (channel, text) pairs in order. -/
def sentTexts (effs : List BotEffect) : List (Int × String) :=
  effs.filterMap (fun e =>
    match e with | .send c t => some (c, t) | .forward _ _ _ => none | .log _ => none)

/-- The job-forward attempts of a dispatcher run: (url, payload, timeout). -/
def forwardedJobs (effs : List BotEffect) : List (String × JobPayload × Nat) :=
  effs.filterMap (fun e =>
    match e with | .forward u p t => some (u, p, t) | .send _ _ => none | .log _ => none)

/-- Does `requests.post` followed by `raise_for_status` fail (transport error
or status in `[400, 600)`)? -/
def postFails : PostResult → Prop
  | .transportError _ => True
  | .response s => 400 ≤ s ∧ s < 600

instance : ∀ p, Decidable (postFails p)
  | .transportError _ => .isTrue trivial
  | .response _ => instDecidableAnd

/-! ## Helper lemmas -/

/-- A list does match its own initial run. -/
theorem listHeadMatches_append (p rest : List Char) :
    listHeadMatches (p ++ rest) p = true := by
  induction p with
  | nil => simp [listHeadMatches]
  | cons c cs ih => simp [listHeadMatches, ih]

/-- `dropWhile` on a list all of whose elements satisfy the test is empty. -/
theorem dropWhile_of_all {α : Type} (p : α → Bool) (l : List α)
    (h : ∀ a ∈ l, p a = true) : l.dropWhile p = [] := by
  induction l with
  | nil => rfl
  | cons a t ih =>
    have ha : p a = true := h a (List.mem_cons_self a t)
    simp [List.dropWhile_cons, ha,
      ih fun b hb => h b (List.mem_cons_of_mem a hb)]

/-- Stripping an all-whitespace string yields the empty string. -/
theorem pyStrip_of_all_space (w : String) (hw : w.data.all isPySpace = true) :
    pyStrip w = "" := by
  have h1 : w.data.dropWhile isPySpace = [] := by
    refine dropWhile_of_all _ _ ?_
    simpa [List.all_eq_true] using hw
  unfold pyStrip
  rw [h1]
  rfl

/-- The acknowledgment reply is never the apology reply (their first
characters differ), so the two kinds of sends cannot be confused. -/
theorem ackText_ne_apologyText (q : String) : ackText q ≠ apologyText := by
  intro h
  have h2 : (ackText q).data.head? = apologyText.data.head? := by rw [h]
  have h3 : (ackText q).data.head? = some 'G' := rfl
  rw [h3] at h2
  exact Option.noConfusion h2.symm fun hc => Char.noConfusion hc (by decide)

/-- Unfolding of `on_message` on a non-bot message carrying the command
marker: the log, the acknowledgment send, the forward, then the
branch on the outcome of the POST. -/
theorem on_message_job_run (url : String) (post : PostResult) (m : InMessage)
    (hb : m.authorIsBot = false) (hp : pyStartsWith m.content commandMarker = true) :
    on_message url post m
      = BotEffect.log ("Received query from channel " ++ toString m.channelId ++ ": "
            ++ pyStrip (strDrop m.content commandMarker.length)) ::
        BotEffect.send m.channelId
          (ackText (pyStrip (strDrop m.content commandMarker.length))) ::
        BotEffect.forward url
          ⟨pyStrip (strDrop m.content commandMarker.length),
            toString m.channelId, m.authorName⟩ 10 ::
        (match post with
         | .transportError e =>
           [BotEffect.log ("Error sending data to n8n: " ++ e),
            BotEffect.send m.channelId apologyText]
         | .response s =>
           if 400 ≤ s ∧ s < 600 then
             [BotEffect.log ("Error sending data to n8n: HTTPError " ++ toString s),
              BotEffect.send m.channelId apologyText]
           else
             [BotEffect.log ("Successfully sent data to n8n. Status: " ++ toString s)]) := by
  simp [on_message, hb, hp]

/-- The Discord sends of a job run: the acknowledgment, then the apology
exactly when the POST (followed by `raise_for_status`) fails. -/
theorem sentTexts_job_run (url : String) (post : PostResult) (m : InMessage)
    (hb : m.authorIsBot = false) (hp : pyStartsWith m.content commandMarker = true) :
    sentTexts (on_message url post m)
      = (m.channelId, ackText (pyStrip (strDrop m.content commandMarker.length))) ::
        (if postFails post then [(m.channelId, apologyText)] else []) := by
  rw [on_message_job_run url post m hb hp]
  cases post with
  | transportError e => simp [sentTexts, postFails]
  | response s =>
    by_cases hs : 400 ≤ s ∧ s < 600
    · simp [sentTexts, postFails, hs]
    · simp [sentTexts, postFails, hs]

/-- The job-forward attempts of a job run: exactly one, with the trimmed
original-case query, the channel id rendered as a string, the author name,
and timeout 10. -/
theorem forwardedJobs_job_run (url : String) (post : PostResult) (m : InMessage)
    (hb : m.authorIsBot = false) (hp : pyStartsWith m.content commandMarker = true) :
    forwardedJobs (on_message url post m)
      = [(url, ⟨pyStrip (strDrop m.content commandMarker.length),
            toString m.channelId, m.authorName⟩, 10)] := by
  rw [on_message_job_run url post m hb hp]
  cases post with
  | transportError e => simp [forwardedJobs]
  | response s =>
    by_cases hs : 400 ≤ s ∧ s < 600
    · simp [forwardedJobs, hs]
    · simp [forwardedJobs, hs]

/-! ## Claims -/

/-- A 4500-character message, exceeding the platform's 2000-character
single-message limit, used to exhibit the absence of chunking. -/
def bigMsg : String := ⟨List.replicate 4500 'x'⟩

/-- C1 (counterexample): delivering a 4500-character message through
`send_message_to_channel` with a resolved channel emits exactly one send of
the entire message.  The claim demands ceil(4500/2000) = 3 segments each of
length at most 2000; the code emits 1 segment of length 4500, and performs no
pacing (no delay exists anywhere in the function). -/
theorem C1_counterexample :
    bigMsg.length = 4500 ∧
    deliveryTexts (send_message_to_channel (.ok (some ())) (.ok ()) 42 bigMsg)
      = [bigMsg] ∧
    (deliveryTexts (send_message_to_channel (.ok (some ())) (.ok ()) 42 bigMsg)).length
      ≠ (4500 + 2000 - 1) / 2000 ∧
    ¬ (∀ t ∈ deliveryTexts (send_message_to_channel (.ok (some ())) (.ok ()) 42 bigMsg),
        t.length ≤ 2000) := by
  have hlen : bigMsg.length = 4500 := by
    show (List.replicate 4500 'x').length = 4500
    exact List.length_replicate 4500 'x'
  have htexts : deliveryTexts (send_message_to_channel (.ok (some ())) (.ok ()) 42 bigMsg)
      = [bigMsg] := rfl
  refine ⟨hlen, htexts, ?_, ?_⟩
  · rw [htexts]; decide
  · rw [htexts]
    intro hall
    have h1 := hall bigMsg (List.mem_singleton_self bigMsg)
    rw [hlen] at h1
    exact absurd h1 (by decide)

/-- C1 (amended): `send_message_to_channel` contains no chunking logic at
all: whenever channel resolution succeeds, the message is sent as exactly one
unit regardless of its length, and no pacing delay exists. -/
theorem C1_amended (sendResult : Except String Unit) (channel_id : Int)
    (message : String) :
    deliveryTexts (send_message_to_channel (.ok (some ())) sendResult channel_id message)
      = [message] := by
  cases sendResult <;> rfl

/-- C2 (counterexample): the message `"!Smith Who is that guy?"`, whose query
compared case-insensitively equals the fixed phrase, is not answered with a
fixed reply: the dispatcher sends the ordinary acknowledgment and performs
one job forward (the claim demands zero forwards and a fixed emoji reply). -/
theorem C2_counterexample :
    pyLower (pyStrip (strDrop "!Smith Who is that guy?" commandMarker.length))
      = "who is that guy?" ∧
    forwardedJobs (on_message "https://n8n.example/webhook" (.response 200)
        ⟨false, "alice", "!Smith Who is that guy?", 42⟩)
      = [("https://n8n.example/webhook", ⟨"Who is that guy?", "42", "alice"⟩, 10)] ∧
    sentTexts (on_message "https://n8n.example/webhook" (.response 200)
        ⟨false, "alice", "!Smith Who is that guy?", 42⟩)
      = [(42, ackText "Who is that guy?")] := by decide

/-- C2 (amended): no static-command path exists in `on_message`: a message
whose query matches "who is that guy?" case-insensitively is handled by the
ordinary job path — the acknowledgment is the first send and exactly one job
forward is made. -/
theorem C2_amended (url : String) (post : PostResult) (m : InMessage)
    (hb : m.authorIsBot = false)
    (hp : pyStartsWith m.content commandMarker = true)
    (_hq : pyLower (pyStrip (strDrop m.content commandMarker.length))
            = "who is that guy?") :
    forwardedJobs (on_message url post m)
      = [(url, ⟨pyStrip (strDrop m.content commandMarker.length),
            toString m.channelId, m.authorName⟩, 10)] ∧
    (sentTexts (on_message url post m)).head?
      = some (m.channelId, ackText (pyStrip (strDrop m.content commandMarker.length))) := by
  refine ⟨forwardedJobs_job_run url post m hb hp, ?_⟩
  rw [sentTexts_job_run url post m hb hp]
  rfl

/-- C2 (witness for the amended claim). -/
theorem C2_witness :
    forwardedJobs (on_message "https://n8n.example/webhook" (.response 200)
        ⟨false, "alice", "!Smith Who is that guy?", 42⟩)
      = [("https://n8n.example/webhook", ⟨"Who is that guy?", "42", "alice"⟩, 10)] ∧
    (sentTexts (on_message "https://n8n.example/webhook" (.response 200)
        ⟨false, "alice", "!Smith Who is that guy?", 42⟩)).head?
      = some (42, ackText "Who is that guy?") :=
  C2_amended "https://n8n.example/webhook" (.response 200)
    ⟨false, "alice", "!Smith Who is that guy?", 42⟩ rfl (by decide) (by decide)

/-- C3: for a non-bot message carrying the command marker with a non-empty
trimmed query, the dispatcher's first and only acknowledgment send is
`"Got it. Analyzing your request: `<query>`. Please wait..."` (the only other
possible send being the apology, which is a different string), and exactly
one job-forward attempt is made, whose payload has exactly the fields
`query` (trimmed original-case), `channel_id` (the id as a string) and
`user` (the author's name). -/
theorem C3_job_path (url : String) (post : PostResult) (m : InMessage)
    (hb : m.authorIsBot = false)
    (hp : pyStartsWith m.content commandMarker = true)
    (_hq : pyStrip (strDrop m.content commandMarker.length) ≠ "") :
    ackText (pyStrip (strDrop m.content commandMarker.length)) ≠ apologyText ∧
    (sentTexts (on_message url post m)
       = [(m.channelId, ackText (pyStrip (strDrop m.content commandMarker.length)))] ∨
     sentTexts (on_message url post m)
       = [(m.channelId, ackText (pyStrip (strDrop m.content commandMarker.length))),
          (m.channelId, apologyText)]) ∧
    forwardedJobs (on_message url post m)
      = [(url, ⟨pyStrip (strDrop m.content commandMarker.length),
            toString m.channelId, m.authorName⟩, 10)] := by
  refine ⟨ackText_ne_apologyText _, ?_, forwardedJobs_job_run url post m hb hp⟩
  rw [sentTexts_job_run url post m hb hp]
  by_cases hf : postFails post
  · right; simp [hf]
  · left; simp [hf]

/-- C3 (witness). -/
theorem C3_witness :
    ackText "summarize this" ≠ apologyText ∧
    (sentTexts (on_message "https://n8n.example/webhook" (.response 200)
        ⟨false, "alice", "!Smith summarize this", 42⟩)
       = [(42, ackText "summarize this")] ∨
     sentTexts (on_message "https://n8n.example/webhook" (.response 200)
        ⟨false, "alice", "!Smith summarize this", 42⟩)
       = [(42, ackText "summarize this"), (42, apologyText)]) ∧
    forwardedJobs (on_message "https://n8n.example/webhook" (.response 200)
        ⟨false, "alice", "!Smith summarize this", 42⟩)
      = [("https://n8n.example/webhook", ⟨"summarize this", "42", "alice"⟩, 10)] :=
  C3_job_path "https://n8n.example/webhook" (.response 200)
    ⟨false, "alice", "!Smith summarize this", 42⟩ rfl (by decide) (by decide)

/-- C4: a `POST /webhook` whose body decodes, whose `channel_id` converts by
`int()` and whose `message` field is present yields status 200 with body
`{"status": "success"}` and a scheduled delivery; any other body yields
status 500 with body `{"status": "error", "details": <string>}` and no
delivery is scheduled (the handler performs no send itself: its only chat
effect is the `scheduled` task, which is `none` in every failure case). -/
theorem C4_webhook (req : Option CallbackBody) :
    (callbackOk req →
       (receive_n8n_response req).status = 200 ∧
       (receive_n8n_response req).body = .success ∧
       (receive_n8n_response req).scheduled.isSome) ∧
    (¬ callbackOk req →
       (receive_n8n_response req).status = 500 ∧
       (∃ d, (receive_n8n_response req).body = .error d) ∧
       (receive_n8n_response req).scheduled = none) := by
  constructor
  · rintro ⟨d, rfl, ⟨v, hv, hint⟩, hmsg⟩
    obtain ⟨n, hn⟩ := Option.isSome_iff_exists.mp hint
    obtain ⟨msg, hm⟩ := Option.isSome_iff_exists.mp hmsg
    simp [receive_n8n_response, hv, hn, hm]
  · intro h
    cases req with
    | none => exact ⟨rfl, ⟨_, rfl⟩, rfl⟩
    | some d =>
      cases hv : d.channel_id with
      | none => simp [receive_n8n_response, hv]
      | some v =>
        cases hn : pyIntOf v with
        | none => simp [receive_n8n_response, hv, hn]
        | some n =>
          cases hm : d.message with
          | none => simp [receive_n8n_response, hv, hn, hm]
          | some msg =>
            exact absurd ⟨d, rfl, ⟨v, hv, by simp [hn]⟩, by simp [hm]⟩ h

/-- C4 (witness): one well-formed body (string `"123"` converts, message
present) and one malformed body (channel id `"abc"`). -/
theorem C4_witness :
    ((receive_n8n_response (some ⟨some (.jStr "123"), some "hi"⟩)).status = 200 ∧
     (receive_n8n_response (some ⟨some (.jStr "123"), some "hi"⟩)).body = .success ∧
     (receive_n8n_response (some ⟨some (.jStr "123"), some "hi"⟩)).scheduled.isSome) ∧
    ((receive_n8n_response (some ⟨some (.jStr "abc"), some "hi"⟩)).status = 500 ∧
     (∃ d, (receive_n8n_response (some ⟨some (.jStr "abc"), some "hi"⟩)).body = .error d) ∧
     (receive_n8n_response (some ⟨some (.jStr "abc"), some "hi"⟩)).scheduled = none) :=
  ⟨(C4_webhook (some ⟨some (.jStr "123"), some "hi"⟩)).1 (by decide),
   (C4_webhook (some ⟨some (.jStr "abc"), some "hi"⟩)).2 (by decide)⟩

/-- C6 (counterexample): status 300 is not a 2xx response, yet the forwarder
sends no apology — `raise_for_status` only raises for status codes in
`[400, 600)`, so after a 300 response the only send is the acknowledgment. -/
theorem C6_counterexample :
    ¬ (200 ≤ (300 : Nat) ∧ (300 : Nat) < 300) ∧
    sentTexts (on_message "https://n8n.example/webhook" (.response 300)
        ⟨false, "alice", "!Smith summarize this", 42⟩)
      = [(42, ackText "summarize this")] ∧
    ackText "summarize this" ≠ apologyText := by decide

/-- C6 (amended): exactly when the forward fails — a transport error, or a
response whose status lies in `[400, 600)` (4xx/5xx) — the failure is logged
and exactly one apology is sent after the acknowledgment; on any other
status, including every 2xx, nothing beyond the acknowledgment is sent; in
all cases the forward is attempted exactly once (no retry). -/
theorem C6_amended (url : String) (post : PostResult) (m : InMessage)
    (hb : m.authorIsBot = false)
    (hp : pyStartsWith m.content commandMarker = true) :
    (postFails post →
       sentTexts (on_message url post m)
         = [(m.channelId, ackText (pyStrip (strDrop m.content commandMarker.length))),
            (m.channelId, apologyText)] ∧
       ∃ d, BotEffect.log ("Error sending data to n8n: " ++ d)
              ∈ on_message url post m) ∧
    (¬ postFails post →
       sentTexts (on_message url post m)
         = [(m.channelId, ackText (pyStrip (strDrop m.content commandMarker.length)))]) ∧
    (forwardedJobs (on_message url post m)).length = 1 := by
  refine ⟨?_, ?_, by rw [forwardedJobs_job_run url post m hb hp]; rfl⟩
  · intro hf
    constructor
    · rw [sentTexts_job_run url post m hb hp]
      simp [hf]
    · rw [on_message_job_run url post m hb hp]
      cases post with
      | transportError e => exact ⟨e, by simp⟩
      | response s =>
        have hs : 400 ≤ s ∧ s < 600 := hf
        refine ⟨"HTTPError " ++ toString s, ?_⟩
        simp [hs]
        exact Or.inr rfl
  · intro hf
    rw [sentTexts_job_run url post m hb hp]
    simp [hf]

/-- C6 (witness for the amended claim): a transport failure yields the
acknowledgment followed by exactly one apology. -/
theorem C6_witness :
    sentTexts (on_message "https://n8n.example/webhook" (.transportError "timeout")
        ⟨false, "alice", "!Smith summarize this", 42⟩)
      = [(42, ackText "summarize this"), (42, apologyText)] :=
  ((C6_amended "https://n8n.example/webhook" (.transportError "timeout")
      ⟨false, "alice", "!Smith summarize this", 42⟩ rfl (by decide)).1 trivial).1

/-- C7: a message authored by the bot itself, or one whose content does not
start with the exact case-sensitive marker `"!Smith "` (trailing space
included), produces no effect at all: no send, no forward. -/
theorem C7_ignored (url : String) (post : PostResult) (m : InMessage)
    (h : m.authorIsBot = true ∨ pyStartsWith m.content commandMarker = false) :
    on_message url post m = [] ∧
    sentTexts (on_message url post m) = [] ∧
    forwardedJobs (on_message url post m) = [] := by
  have h0 : on_message url post m = [] := by
    rcases h with h | h
    · simp [on_message, h]
    · cases hb : m.authorIsBot with
      | false => simp [on_message, hb, h]
      | true => simp [on_message, hb]
  exact ⟨h0, by rw [h0]; rfl, by rw [h0]; rfl⟩

/-- C7 (witness): a self-authored message and a message with the wrong-case
marker `"!smith hi"` are discharged through the two sides of the
hypothesis. -/
theorem C7_witness :
    (on_message "u" (.response 200) ⟨true, "smith-bot", "!Smith hi", 1⟩ = [] ∧
     sentTexts (on_message "u" (.response 200) ⟨true, "smith-bot", "!Smith hi", 1⟩) = [] ∧
     forwardedJobs (on_message "u" (.response 200) ⟨true, "smith-bot", "!Smith hi", 1⟩) = []) ∧
    (on_message "u" (.response 200) ⟨false, "alice", "!smith hi", 1⟩ = [] ∧
     sentTexts (on_message "u" (.response 200) ⟨false, "alice", "!smith hi", 1⟩) = [] ∧
     forwardedJobs (on_message "u" (.response 200) ⟨false, "alice", "!smith hi", 1⟩) = []) :=
  ⟨C7_ignored "u" (.response 200) ⟨true, "smith-bot", "!Smith hi", 1⟩ (Or.inl rfl),
   C7_ignored "u" (.response 200) ⟨false, "alice", "!smith hi", 1⟩ (Or.inr (by decide))⟩

/-- C8: every job-forward attempt the dispatcher ever emits carries the
explicit `requests.post` timeout of the source, 10 seconds, which lies in
the acceptable range 10–15 seconds. -/
theorem C8_timeout (url : String) (post : PostResult) (m : InMessage)
    (u : String) (p : JobPayload) (t : Nat)
    (h : (u, p, t) ∈ forwardedJobs (on_message url post m)) :
    t = 10 ∧ 10 ≤ t ∧ t ≤ 15 := by
  have ht : t = 10 := by
    cases hb : m.authorIsBot with
    | true =>
      rw [show on_message url post m = [] from by simp [on_message, hb]] at h
      simp [forwardedJobs] at h
    | false =>
      cases hp : pyStartsWith m.content commandMarker with
      | false =>
        rw [show on_message url post m = [] from by simp [on_message, hb, hp]] at h
        simp [forwardedJobs] at h
      | true =>
        rw [forwardedJobs_job_run url post m hb hp] at h
        simp at h
        exact h.2.2
  subst ht
  exact ⟨rfl, by decide, by decide⟩

/-- C8 (witness). -/
theorem C8_witness : (10 : Nat) = 10 ∧ 10 ≤ (10 : Nat) ∧ (10 : Nat) ≤ 15 :=
  C8_timeout "https://n8n.example/webhook" (.response 200)
    ⟨false, "alice", "!Smith summarize this", 42⟩
    "https://n8n.example/webhook" ⟨"summarize this", "42", "alice"⟩ 10 (by decide)

/-- C9: when channel resolution fails — `fetch_channel` raises, or returns a
falsy handle — the delivery performs no send and only logs; the `try/except`
of `send_message_to_channel` converts every exception into a plain effect
list, so no exception escapes to the event loop or the HTTP layer (the
embedded function is total with a non-exceptional return type). -/
theorem C9_resolution_failure (fetched : Except String (Option Unit))
    (sendResult : Except String Unit) (channel_id : Int) (message : String)
    (h : (∃ e, fetched = .error e) ∨ fetched = .ok none) :
    deliveryTexts (send_message_to_channel fetched sendResult channel_id message) = [] ∧
    ∃ l, send_message_to_channel fetched sendResult channel_id message
          = [DeliveryEffect.log l] := by
  rcases h with ⟨e, rfl⟩ | rfl
  · exact ⟨rfl, ⟨_, rfl⟩⟩
  · exact ⟨rfl, ⟨_, rfl⟩⟩

/-- C9 (witness): an unknown channel (a raised `NotFound`). -/
theorem C9_witness :
    deliveryTexts (send_message_to_channel (.error "404 Not Found") (.ok ()) 42 "hello") = [] ∧
    ∃ l, send_message_to_channel (.error "404 Not Found") (.ok ()) 42 "hello"
          = [DeliveryEffect.log l] :=
  C9_resolution_failure (.error "404 Not Found") (.ok ()) 42 "hello"
    (Or.inl ⟨"404 Not Found", rfl⟩)

/-- C10: a message whose content is the marker followed only by whitespace
still triggers the job path: the acknowledgment (with empty quoted query) is
sent and exactly one job is forwarded with `query` equal to the empty
string — empty queries are not filtered out. -/
theorem C10_blank_query (url : String) (post : PostResult) (m : InMessage)
    (w : String)
    (hb : m.authorIsBot = false)
    (hc : m.content = commandMarker ++ w)
    (hw : w.data.all isPySpace = true) :
    (sentTexts (on_message url post m)).head? = some (m.channelId, ackText "") ∧
    forwardedJobs (on_message url post m)
      = [(url, ⟨"", toString m.channelId, m.authorName⟩, 10)] := by
  have hp : pyStartsWith m.content commandMarker = true := by
    rw [hc]
    show listHeadMatches (commandMarker.data ++ w.data) commandMarker.data = true
    exact listHeadMatches_append _ _
  have hq : pyStrip (strDrop m.content commandMarker.length) = "" := by
    rw [hc]
    have h1 : strDrop (commandMarker ++ w) commandMarker.length = w := by
      show String.mk ((commandMarker.data ++ w.data).drop commandMarker.data.length) = w
      rw [List.drop_left]
    rw [h1]
    exact pyStrip_of_all_space w hw
  constructor
  · rw [sentTexts_job_run url post m hb hp, hq]
    rfl
  · rw [forwardedJobs_job_run url post m hb hp, hq]

/-- C10 (witness): `"!Smith   "` (two trailing blanks after the marker). -/
theorem C10_witness :
    (sentTexts (on_message "https://n8n.example/webhook" (.response 200)
        ⟨false, "alice", "!Smith   ", 7⟩)).head? = some (7, ackText "") ∧
    forwardedJobs (on_message "https://n8n.example/webhook" (.response 200)
        ⟨false, "alice", "!Smith   ", 7⟩)
      = [("https://n8n.example/webhook", ⟨"", "7", "alice"⟩, 10)] :=
  C10_blank_query "https://n8n.example/webhook" (.response 200)
    ⟨false, "alice", "!Smith   ", 7⟩ "  " rfl (by decide) (by decide)
